import Mathlib

/-!
Shallow embedding of `src/app2.py`, a single-file compound-database lookup
tool: a filtered search over one SQLite table (`search_compounds`), a batch
CAS lookup (`batch_search_cas`), the reconciliation of a batch input list
into found/missing, image display by filename convention (`display_image`),
and the rendering of the `has_aroma` column.

The datastore (SQLite) is an external collaborator; its interpretation of
the queries the code constructs is modelled here explicitly:
`col LIKE '%' ++ v ++ '%'` as literal substring containment (case-sensitive,
one of the two collation choices the spec leaves open; pattern
metacharacters are not modelled), `col = 1` / `col = 0` / `col IS NULL` as
value comparisons on the stored value, and `cas_number IN (...)` as exact
string membership.
-/

namespace CompoundDB

/-- A SQLite storage value as it reaches Python: an integer, a real
(modelled as a rational), a text string, or NULL. -/
inductive Value where
  | intV (z : Int)
  | realV (q : ℚ)
  | textV (s : String)
  | nullV
deriving DecidableEq, Repr

/-- One row of the `compounds` table.  The five columns the code inspects
are explicit; the remaining descriptive columns (molecular weight, formula,
thresholds, ...) are carried opaquely in `rest` — `SELECT *` returns them
but no predicate or reconciliation step reads them. -/
structure Row where
  cas_number : String
  compound_name_cn : String
  category : String
  compound_name_en : String
  has_aroma : Value
  rest : List (String × Value)
deriving DecidableEq, Repr

/-- The `compounds` table: a finite sequence of rows in datastore order. -/
abbrev Table := List Row

/-- `charsStartWith n h`: the character list `n` is an initial segment of `h`. -/
def charsStartWith : List Char → List Char → Bool
  | [], _ => true
  | _ :: _, [] => false
  | a :: as, b :: bs => a == b && charsStartWith as bs

/-- `charsContain n h`: the character list `n` occurs contiguously in `h`. -/
def charsContain (n : List Char) : List Char → Bool
  | [] => n.isEmpty
  | c :: cs => charsStartWith n (c :: cs) || charsContain n cs

/-- Datastore model of `hay LIKE ?` with bound parameter `"%" ++ v ++ "%"`
(the only LIKE shape `search_compounds` builds): `v` occurs in `hay` as a
contiguous substring. -/
def strContainsSub (hay v : String) : Bool :=
  charsContain v.toList hay.toList

/-- Datastore model of the SQL predicate `has_aroma = 1` (app2.py line 49):
true for the stored integer 1 or real 1.0; NULL compares to nothing, and a
text value does not equal a number under SQLite's type ordering. -/
def sqlAromaEqOne : Value → Bool
  | .intV z => z == 1
  | .realV q => decide (q = 1)
  | .textV _ => false
  | .nullV => false

/-- Datastore model of `(has_aroma IS NULL OR has_aroma = 0)`
(app2.py line 51). -/
def sqlAromaFalseOrNull : Value → Bool
  | .nullV => true
  | .intV z => z == 0
  | .realV q => decide (q = 0)
  | .textV _ => false

/-- The aroma part of the WHERE clause of `search_compounds`
(app2.py lines 48–51): `"带香气"` appends `has_aroma = 1`, `"不带香气"`
appends `(has_aroma IS NULL OR has_aroma = 0)`, anything else appends
nothing. -/
def aromaClause (has_aroma : String) (v : Value) : Bool :=
  if has_aroma = "带香气" then sqlAromaEqOne v
  else if has_aroma = "不带香气" then sqlAromaFalseOrNull v
  else true

/-- Datastore model of the full WHERE clause `search_compounds` builds for
one row: `1=1` conjoined with one `LIKE` clause per non-empty text field
(app2.py lines 34–45, in source order) and the aroma clause.  An empty
field (Python falsy) contributes no conjunct. -/
def searchRowMatch (cas_number compound_name_cn category has_aroma
    compound_name_en : String) (r : Row) : Bool :=
  (if cas_number = "" then true else strContainsSub r.cas_number cas_number)
  && (if compound_name_cn = "" then true
      else strContainsSub r.compound_name_cn compound_name_cn)
  && (if category = "" then true else strContainsSub r.category category)
  && (if compound_name_en = "" then true
      else strContainsSub r.compound_name_en compound_name_en)
  && aromaClause has_aroma r.has_aroma

/-- `search_compounds` (app2.py lines 23–55): the rows of the table that
satisfy the dynamically built WHERE clause, in table order. -/
def search_compounds (cas_number compound_name_cn category has_aroma
    compound_name_en : String) (t : Table) : Table :=
  t.filter (searchRowMatch cas_number compound_name_cn category has_aroma
    compound_name_en)

/-- The SQL text `search_compounds` builds (app2.py lines 31–51): literal
fragments appended per non-empty field; field values never enter the text. -/
def searchQueryText (cas_number compound_name_cn category has_aroma
    compound_name_en : String) : String :=
  let q := "SELECT * FROM compounds WHERE 1=1"
  let q := if cas_number = "" then q else q ++ " AND cas_number LIKE ?"
  let q := if compound_name_cn = "" then q
           else q ++ " AND compound_name_cn LIKE ?"
  let q := if category = "" then q else q ++ " AND category LIKE ?"
  let q := if compound_name_en = "" then q
           else q ++ " AND compound_name_en LIKE ?"
  if has_aroma = "带香气" then q ++ " AND has_aroma = 1"
  else if has_aroma = "不带香气" then
    q ++ " AND (has_aroma IS NULL OR has_aroma = 0)"
  else q

/-- The bound-parameter list `search_compounds` accumulates (app2.py
lines 32–45): each non-empty field value wrapped in `%…%`, in source
order; the aroma branch binds no parameter. -/
def searchParams (cas_number compound_name_cn category
    compound_name_en : String) : List String :=
  (if cas_number = "" then [] else ["%" ++ cas_number ++ "%"])
  ++ (if compound_name_cn = "" then []
      else ["%" ++ compound_name_cn ++ "%"])
  ++ (if category = "" then [] else ["%" ++ category ++ "%"])
  ++ (if compound_name_en = "" then []
      else ["%" ++ compound_name_en ++ "%"])

/-- The SQL text `batch_search_cas` builds (app2.py lines 62–63): one `?`
placeholder per input identifier, comma-joined inside `IN (...)`. -/
def batchQueryText (n : Nat) : String :=
  "SELECT * FROM compounds WHERE cas_number IN ("
    ++ String.intercalate "," (List.replicate n "?") ++ ")"

/-- `batch_search_cas` (app2.py lines 57–66), instrumented with the list of
executed queries (text, bound parameters).  An empty input returns an empty
frame before any connection is opened, so no query runs; otherwise a single
`IN (...)` query returns the rows whose `cas_number` is exactly equal
(SQLite BINARY collation) to some input identifier. -/
def batch_search_cas (cas_list : List String) (t : Table) :
    List (String × List String) × List Row :=
  if cas_list = [] then ([], [])
  else ([(batchQueryText cas_list.length, cas_list)],
        t.filter fun r => decide (r.cas_number ∈ cas_list))

/-- `found_cas` (app2.py line 159): the Python set of `cas_number` values in
the batch result, modelled as the deduplicated list of returned
identifiers. -/
def found_cas (cas_list : List String) (t : Table) : List String :=
  ((batch_search_cas cas_list t).2.map Row.cas_number).dedup

/-- `missing` (app2.py line 160): the input identifiers not in the found
set, in original input order, duplicates retained. -/
def missing (cas_list : List String) (t : Table) : List String :=
  cas_list.filter fun c => decide (c ∉ found_cas cas_list t)

/-- The CAS list read from the uploaded file (app2.py lines 155–156): each
line stripped of surrounding whitespace, blank lines discarded (the raw
line must be non-blank, and the stripped value non-empty). -/
def parseCasList (lines : List String) : List String :=
  ((lines.filter fun l => l.trim ≠ "").map String.trim).filter fun c => c ≠ ""

/-- A user-visible notice emitted by the page: `st.success`, `st.warning`,
`st.error` or `st.info`. -/
inductive Notice where
  | success (msg : String)
  | warning (msg : String)
  | error (msg : String)
  | info (msg : String)
deriving DecidableEq, Repr

/-- What one run of the batch branch produces: the datastore queries it
executed, the notices it showed, and the result frame `df`. -/
structure BatchOutcome where
  queries : List (String × List String)
  notices : List Notice
  df : List Row
deriving DecidableEq, Repr

/-- The datastore as seen by one interaction: either reachable with table
contents `t`, or failing every connection/query with an exception message. -/
abbrev Db := Except String Table

/-- The `uploaded_file` branch (app2.py lines 153–170).  The whole body sits
in `try/except`: a datastore failure is caught and shown as `st.error` with
`df` left empty; an empty parsed list shows `st.warning "文件为空"` without
touching the datastore; otherwise the single batch query runs, a success
notice reports the found/input counts, and a warning lists the missing
identifiers when there are any. -/
def uploadedFileBranch (lines : List String) (db : Db) : BatchOutcome :=
  let cas_list := parseCasList lines
  if cas_list = [] then ⟨[], [.warning "文件为空"], []⟩
  else
    match db with
    | .error e => ⟨[], [.error ("批量查询失败: " ++ e)], []⟩
    | .ok t =>
      let res := batch_search_cas cas_list t
      let fnd := found_cas cas_list t
      let mis := missing cas_list t
      ⟨res.1,
       [.success ("批量查询完成：" ++ toString fnd.length ++ "/"
          ++ toString cas_list.length ++ " 个匹配")]
         ++ (if mis = [] then []
             else [.warning ("未找到的 CAS: " ++ String.intercalate ", " mis)]),
       res.2⟩

/-- How one script run (one user interaction) ends: either the page renders
with some notices and a result frame, or an exception escapes all handlers
and aborts the run. -/
inductive InteractionResult where
  | page (notices : List Notice) (df : List Row)
  | crashed (e : String)
deriving DecidableEq, Repr

/-- The dispatch at app2.py lines 153–181: an uploaded file takes
precedence and runs the guarded batch branch; otherwise a search click runs
`search_compounds` with NO surrounding `try/except`, so a datastore failure
escapes as an uncaught exception; otherwise the page shows an empty frame. -/
def runInteraction (uploaded : Option (List String)) (do_search : Bool)
    (cas_number compound_name_cn category has_aroma compound_name_en : String)
    (db : Db) : InteractionResult :=
  match uploaded with
  | some lines =>
    let out := uploadedFileBranch lines db
    .page out.notices out.df
  | none =>
    if do_search then
      match db with
      | .error e => .crashed e
      | .ok t => .page [] (search_compounds cas_number compound_name_cn
          category has_aroma compound_name_en t)
    else .page [] []

/-- The state of a path in the image directory: no file, a readable image,
or a file `PIL.Image.open` rejects with exception text `e`. -/
inductive FileStatus where
  | absent
  | readable
  | corrupt (e : String)
deriving DecidableEq, Repr

/-- What `display_image` renders: the image with its caption, an
`st.error` note, or an `st.info` note. -/
inductive ImageOutcome where
  | shown (caption : String)
  | errorNote (msg : String)
  | infoNote (msg : String)
deriving DecidableEq, Repr

/-- The path `display_image` builds (app2.py line 73):
`os.path.join(IMG_DIR, f"{cas}.png")` with `IMG_DIR = "img"`. -/
def imgPath (cas : String) : String := "img/" ++ cas ++ ".png"

/-- `display_image` (app2.py lines 71–81), over a filesystem `fs` mapping
paths to their status: an existing readable file is shown with its caption;
an existing unreadable file is reported via `st.error`; a missing file is
reported via `st.info`.  Every case returns normally. -/
def display_image (cas : String) (fs : String → FileStatus) : ImageOutcome :=
  match fs (imgPath cas) with
  | .readable => .shown ("结构图: " ++ cas ++ ".png")
  | .corrupt e => .errorNote ("图片加载失败: " ++ e)
  | .absent => .infoNote ("图片不存在: " ++ cas ++ ".png")

/-- Python `x == 1` on the `has_aroma` value a row carries (app2.py
lines 111 and 186): an int or float numerically equal to 1 compares true;
a string never equals 1; NULL reaches Python as None/NaN, never equal
to 1. -/
def pyEqOne : Value → Bool
  | .intV z => z == 1
  | .realV q => decide (q = 1)
  | .textV _ => false
  | .nullV => false

/-- The `has_aroma_display` column of the result table (app2.py line 186):
`"是" if x == 1 else "否"`. -/
def has_aroma_display (v : Value) : String :=
  if pyEqOne v then "是" else "否"

/-- The aroma line of the detail view (app2.py line 111):
`"是" if row.get("has_aroma") == 1 else "否"`. -/
def detailAromaText (v : Value) : String :=
  if pyEqOne v then "是" else "否"

/-- A one-row table holding ethanol, for concrete evaluation. -/
def ethanolTable : Table :=
  [⟨"64-17-5", "乙醇", "醇类", "ethanol", .intV 1, []⟩]

/-! ## Helper lemmas -/

theorem charsStartWith_iff (n h : List Char) :
    charsStartWith n h = true ↔ ∃ s, h = n ++ s := by
  induction n generalizing h with
  | nil => simp [charsStartWith]
  | cons a as ih =>
    cases h with
    | nil =>
      simp only [charsStartWith]
      exact iff_of_false (by simp)
        (by rintro ⟨s, hs⟩; exact List.cons_ne_nil _ _ hs.symm)
    | cons b bs =>
      simp only [charsStartWith, Bool.and_eq_true, beq_iff_eq, ih]
      constructor
      · rintro ⟨rfl, s, rfl⟩; exact ⟨s, rfl⟩
      · rintro ⟨s, hs⟩
        rw [List.cons_append] at hs
        injection hs with h1 h2
        exact ⟨h1.symm, s, h2⟩

theorem charsContain_iff (n h : List Char) :
    charsContain n h = true ↔ ∃ p s, h = p ++ n ++ s := by
  induction h with
  | nil =>
    simp only [charsContain, List.isEmpty_iff]
    constructor
    · rintro rfl; exact ⟨[], [], rfl⟩
    · rintro ⟨p, s, hps⟩
      rcases List.append_eq_nil.mp (List.append_eq_nil.mp hps.symm).1 with ⟨-, h2⟩
      exact h2
  | cons c cs ih =>
    simp only [charsContain, Bool.or_eq_true, charsStartWith_iff, ih]
    constructor
    · rintro (⟨s, hs⟩ | ⟨p, s, rfl⟩)
      · exact ⟨[], s, by simpa using hs⟩
      · exact ⟨c :: p, s, by simp⟩
    · rintro ⟨p, s, hps⟩
      cases p with
      | nil => exact Or.inl ⟨s, by simpa using hps⟩
      | cons x xs =>
        right
        rw [List.cons_append, List.cons_append] at hps
        injection hps with h1 h2
        exact ⟨xs, s, by rw [h2, List.append_assoc]⟩

theorem strContainsSub_iff (hay v : String) :
    strContainsSub hay v = true ↔ ∃ p s : String, hay = p ++ v ++ s := by
  rw [strContainsSub, charsContain_iff]
  constructor
  · rintro ⟨p, s, hps⟩
    refine ⟨⟨p⟩, ⟨s⟩, String.ext ?_⟩
    simpa [String.data_append] using hps
  · rintro ⟨p, s, rfl⟩
    exact ⟨p.data, s.data, by simp [String.data_append, String.toList]⟩

theorem iteTrueIff (c : Prop) [Decidable c] (b : Bool) :
    ((if c then true else b) = true) ↔ (¬ c → b = true) := by
  by_cases h : c <;> simp [h]

theorem sqlAromaEqOne_iff (v : Value) :
    sqlAromaEqOne v = true ↔ v = .intV 1 ∨ v = .realV 1 := by
  cases v <;> simp [sqlAromaEqOne]

theorem sqlAromaFalseOrNull_iff (v : Value) :
    sqlAromaFalseOrNull v = true ↔
      v = .nullV ∨ v = .intV 0 ∨ v = .realV 0 := by
  cases v <;> simp [sqlAromaFalseOrNull]

theorem mem_search_iff (cas_number compound_name_cn category has_aroma
    compound_name_en : String) (t : Table) (r : Row) :
    r ∈ search_compounds cas_number compound_name_cn category has_aroma
        compound_name_en t ↔
      r ∈ t ∧ searchRowMatch cas_number compound_name_cn category has_aroma
        compound_name_en r = true :=
  List.mem_filter

theorem aromaClause_yes (v : Value) :
    aromaClause "带香气" v = sqlAromaEqOne v := by
  rw [aromaClause, if_pos rfl]

theorem aromaClause_no (v : Value) :
    aromaClause "不带香气" v = sqlAromaFalseOrNull v := by
  rw [aromaClause, if_neg (by decide), if_pos rfl]

theorem aromaClause_unset (v : Value) : aromaClause "" v = true := by
  rw [aromaClause, if_neg (by decide), if_neg (by decide)]

theorem searchRowMatch_aroma_split (cas_number compound_name_cn category
    has_aroma compound_name_en : String) (r : Row) :
    searchRowMatch cas_number compound_name_cn category has_aroma
        compound_name_en r =
      (searchRowMatch cas_number compound_name_cn category ""
        compound_name_en r && aromaClause has_aroma r.has_aroma) := by
  simp only [searchRowMatch, aromaClause_unset, Bool.and_true]

theorem mem_search_aroma (cas_number compound_name_cn category has_aroma
    compound_name_en : String) (t : Table) (r : Row) :
    r ∈ search_compounds cas_number compound_name_cn category has_aroma
        compound_name_en t ↔
      (r ∈ search_compounds cas_number compound_name_cn category ""
          compound_name_en t
        ∧ aromaClause has_aroma r.has_aroma = true) := by
  simp only [mem_search_iff]
  rw [searchRowMatch_aroma_split cas_number compound_name_cn category
    has_aroma compound_name_en r]
  simp [Bool.and_eq_true, and_assoc]

/-! ## Claim theorems -/

/-- C8: calling the filtered search with every field empty adds no
predicate beyond the trivial `1=1` — the query text is the bare base
query, no parameter is bound, and the entire table comes back. -/
theorem search_all_empty_returns_table (t : Table) :
    search_compounds "" "" "" "" "" t = t
    ∧ searchQueryText "" "" "" "" "" = "SELECT * FROM compounds WHERE 1=1"
    ∧ searchParams "" "" "" "" = [] := by
  refine ⟨?_, rfl, rfl⟩
  simp [search_compounds, searchRowMatch, aromaClause]

/-- C1: membership in the filtered-search result is exactly: the row is in
the table, each supplied (non-empty) text field occurs as a contiguous
substring of the corresponding column, each omitted (empty) field imposes
no condition, and the tri-state aroma clause holds (its exact semantics
are unpacked in the C2 theorem). -/
theorem search_compounds_filter_semantics (cas_number compound_name_cn
    category has_aroma compound_name_en : String) (t : Table) (r : Row) :
    r ∈ search_compounds cas_number compound_name_cn category has_aroma
        compound_name_en t ↔
      r ∈ t
      ∧ (cas_number ≠ "" →
          ∃ p s : String, r.cas_number = p ++ cas_number ++ s)
      ∧ (compound_name_cn ≠ "" →
          ∃ p s : String, r.compound_name_cn = p ++ compound_name_cn ++ s)
      ∧ (category ≠ "" → ∃ p s : String, r.category = p ++ category ++ s)
      ∧ (compound_name_en ≠ "" →
          ∃ p s : String, r.compound_name_en = p ++ compound_name_en ++ s)
      ∧ aromaClause has_aroma r.has_aroma = true := by
  simp only [mem_search_iff, searchRowMatch, Bool.and_eq_true, iteTrueIff,
    strContainsSub_iff]
  tauto

/-- C2: the tri-state aroma filter: `"带香气"` keeps exactly the rows whose
flag is the number 1; `"不带香气"` keeps exactly the rows whose flag is
NULL or the number 0; the unset value `""` makes row acceptance independent
of the flag value. -/
theorem search_compounds_aroma_tristate (cas_number compound_name_cn
    category compound_name_en : String) (t : Table) (r : Row) :
    (r ∈ search_compounds cas_number compound_name_cn category "带香气"
        compound_name_en t ↔
      r ∈ search_compounds cas_number compound_name_cn category ""
          compound_name_en t
        ∧ (r.has_aroma = .intV 1 ∨ r.has_aroma = .realV 1))
    ∧ (r ∈ search_compounds cas_number compound_name_cn category "不带香气"
        compound_name_en t ↔
      r ∈ search_compounds cas_number compound_name_cn category ""
          compound_name_en t
        ∧ (r.has_aroma = .nullV ∨ r.has_aroma = .intV 0
            ∨ r.has_aroma = .realV 0))
    ∧ (∀ v : Value, searchRowMatch cas_number compound_name_cn category ""
        compound_name_en { r with has_aroma := v }
          = searchRowMatch cas_number compound_name_cn category ""
              compound_name_en r) := by
  refine ⟨?_, ?_, ?_⟩
  · rw [mem_search_aroma, aromaClause_yes, sqlAromaEqOne_iff]
  · rw [mem_search_aroma, aromaClause_no, sqlAromaFalseOrNull_iff]
  · intro v
    simp [searchRowMatch, aromaClause_unset]

/-- C3: for a non-empty identifier list, the found set and the missing list
partition the distinct input identifiers: their union is exactly the set of
input identifiers, they are disjoint, membership in the found set is exact
string membership among the identifiers the single IN-query returned, and
the missing list is a sublist of the input, so it preserves the caller's
original order. -/
theorem batch_reconciliation_partition (cas_list : List String) (t : Table)
    (hne : cas_list ≠ []) :
    (∀ c, (c ∈ found_cas cas_list t ∨ c ∈ missing cas_list t)
        ↔ c ∈ cas_list)
    ∧ (∀ c, ¬ (c ∈ found_cas cas_list t ∧ c ∈ missing cas_list t))
    ∧ (∀ c, c ∈ found_cas cas_list t
        ↔ c ∈ (batch_search_cas cas_list t).2.map Row.cas_number)
    ∧ List.Sublist (missing cas_list t) cas_list := by
  have hfound : ∀ c, c ∈ found_cas cas_list t ↔
      c ∈ (batch_search_cas cas_list t).2.map Row.cas_number := by
    intro c; rw [found_cas]; exact List.mem_dedup
  have hres : (batch_search_cas cas_list t).2
      = t.filter (fun r => decide (r.cas_number ∈ cas_list)) := by
    simp [batch_search_cas, hne]
  have hfound_sub : ∀ c, c ∈ found_cas cas_list t → c ∈ cas_list := by
    intro c hc
    rcases List.mem_map.mp ((hfound c).mp hc) with ⟨r, hr, rfl⟩
    rw [hres] at hr
    simpa using (List.mem_filter.mp hr).2
  have hmiss : ∀ c, c ∈ missing cas_list t ↔
      c ∈ cas_list ∧ c ∉ found_cas cas_list t := by
    intro c
    rw [missing]
    simp [List.mem_filter]
  refine ⟨?_, ?_, hfound, by rw [missing]; exact List.filter_sublist _⟩
  · intro c
    constructor
    · rintro (hc | hc)
      · exact hfound_sub c hc
      · exact ((hmiss c).mp hc).1
    · intro hc
      by_cases hm : c ∈ found_cas cas_list t
      · exact Or.inl hm
      · exact Or.inr ((hmiss c).mpr ⟨hc, hm⟩)
  · rintro c ⟨h1, h2⟩
    exact ((hmiss c).mp h2).2 h1

/-- C3 witness: the partition properties evaluated on the batch input
`["64-17-5", "999-99-9"]` against a store containing only ethanol. -/
theorem batch_reconciliation_partition_witness :
    (∀ c, (c ∈ found_cas ["64-17-5", "999-99-9"] ethanolTable
          ∨ c ∈ missing ["64-17-5", "999-99-9"] ethanolTable)
        ↔ c ∈ ["64-17-5", "999-99-9"])
    ∧ (∀ c, ¬ (c ∈ found_cas ["64-17-5", "999-99-9"] ethanolTable
          ∧ c ∈ missing ["64-17-5", "999-99-9"] ethanolTable))
    ∧ (∀ c, c ∈ found_cas ["64-17-5", "999-99-9"] ethanolTable
        ↔ c ∈ (batch_search_cas ["64-17-5", "999-99-9"]
            ethanolTable).2.map Row.cas_number)
    ∧ List.Sublist (missing ["64-17-5", "999-99-9"] ethanolTable)
        ["64-17-5", "999-99-9"] :=
  batch_reconciliation_partition ["64-17-5", "999-99-9"] ethanolTable
    (List.cons_ne_nil _ _)

/-- C9: an identifier absent from the found set appears in the missing
list once per input occurrence (duplicates retained); an identifier in the
found set never appears in the missing list; and the found set contains no
duplicates. -/
theorem missing_duplicates_per_occurrence (cas_list : List String)
    (t : Table) (c : String) :
    (c ∉ found_cas cas_list t →
      (missing cas_list t).count c = cas_list.count c)
    ∧ (c ∈ found_cas cas_list t → (missing cas_list t).count c = 0)
    ∧ (found_cas cas_list t).Nodup := by
  refine ⟨?_, ?_, ?_⟩
  · intro hc
    rw [missing]
    exact List.count_filter (by simpa using hc)
  · intro hc
    rw [missing, List.count_eq_zero]
    intro hmem
    have := (List.mem_filter.mp hmem).2
    simp at this
    exact this hc
  · exact List.nodup_dedup _

/-- C9 witness: with `999-99-9` twice in the input and absent from the
store, the missing list reports it twice; found contains no duplicates. -/
theorem missing_duplicates_per_occurrence_witness :
    ((("999-99-9" : String)
        ∉ found_cas ["999-99-9", "64-17-5", "999-99-9"] ethanolTable)
      ∧ (missing ["999-99-9", "64-17-5", "999-99-9"] ethanolTable).count
          "999-99-9" = 2)
    ∧ (found_cas ["999-99-9", "64-17-5", "999-99-9"] ethanolTable).Nodup := by
  refine ⟨⟨by decide, ?_⟩, (missing_duplicates_per_occurrence
    ["999-99-9", "64-17-5", "999-99-9"] ethanolTable "999-99-9").2.2⟩
  have hcount := (missing_duplicates_per_occurrence
    ["999-99-9", "64-17-5", "999-99-9"] ethanolTable "999-99-9").1
    (by decide)
  rw [hcount]
  decide

/-- C4: when the parsed identifier list is empty, the batch branch executes
no query, shows the explicit "文件为空" warning and leaves the result
empty — whatever the datastore state; and `batch_search_cas` itself runs
zero queries on an empty list. -/
theorem empty_batch_no_queries (lines : List String) (db : Db)
    (h : parseCasList lines = []) :
    uploadedFileBranch lines db = ⟨[], [.warning "文件为空"], []⟩
    ∧ ∀ t : Table, batch_search_cas [] t = ([], []) := by
  refine ⟨?_, fun t => rfl⟩
  simp [uploadedFileBranch, h]

/-- C4 witness: the empty upload, with the datastore reachable. -/
theorem empty_batch_no_queries_witness :
    uploadedFileBranch [] (.ok ethanolTable)
      = ⟨[], [Notice.warning "文件为空"], []⟩
    ∧ ∀ t : Table, batch_search_cas [] t = ([], []) :=
  empty_batch_no_queries [] (.ok ethanolTable) rfl

/-- C5 counterexample: two filtered searches with the same present-field
set (all four text fields omitted, the tri-state field supplied in both)
but different tri-state values build different SQL text, refuting the
claimed text identity over all same-presence input pairs. -/
theorem query_text_aroma_counterexample :
    ("带香气" : String) ≠ "" ∧ ("不带香气" : String) ≠ ""
    ∧ ("带香气" : String) ≠ "不带香气"
    ∧ searchQueryText "" "" "" "带香气" ""
        ≠ searchQueryText "" "" "" "不带香气" "" := by
  refine ⟨by decide, by decide, by decide, by decide⟩

/-- C5 (amended): with the same presence pattern on the four text fields
and the same tri-state selection, the filtered-search SQL text is
identical — the user-supplied text values surface only in the bound
parameter list; and any two batch inputs of equal length build identical
SQL text. -/
theorem query_text_depends_only_on_shape
    (c1 n1 g1 e1 c2 n2 g2 e2 a : String) (l1 l2 : List String)
    (hc : c1 = "" ↔ c2 = "") (hn : n1 = "" ↔ n2 = "")
    (hg : g1 = "" ↔ g2 = "") (he : e1 = "" ↔ e2 = "")
    (hl : l1.length = l2.length) :
    searchQueryText c1 n1 g1 a e1 = searchQueryText c2 n2 g2 a e2
    ∧ batchQueryText l1.length = batchQueryText l2.length := by
  constructor
  · have ec : (c1 = "") = (c2 = "") := propext hc
    have en' : (n1 = "") = (n2 = "") := propext hn
    have eg : (g1 = "") = (g2 = "") := propext hg
    have ee : (e1 = "") = (e2 = "") := propext he
    simp only [searchQueryText, ec, en', eg, ee]
  · rw [hl]

/-- C5 witness: different field values, same presence pattern and aroma
selection; batch inputs of equal length. -/
theorem query_text_depends_only_on_shape_witness :
    searchQueryText "64" "醇" "" "带香气" ""
        = searchQueryText "7664" "酸" "" "带香气" ""
    ∧ batchQueryText (["64-17-5", "999-99-9"] : List String).length
        = batchQueryText (["7664-41-7", "50-00-0"] : List String).length :=
  query_text_depends_only_on_shape "64" "醇" "" "" "7664" "酸" "" "" "带香气"
    ["64-17-5", "999-99-9"] ["7664-41-7", "50-00-0"]
    (by decide) (by decide) Iff.rfl Iff.rfl rfl

/-- C6 counterexample: a datastore failure during a filtered-search
interaction ends the run as an uncaught exception — it is not converted to
a user-visible notice, because the search branch has no exception
handler. -/
theorem do_search_uncaught_counterexample :
    runInteraction none true "64-17-5" "" "" "" ""
        (.error "unable to open database file")
      = .crashed "unable to open database file" := rfl

/-- C6 (amended): the batch branch catches a datastore failure at its
boundary and converts it to an error notice (or the empty-input warning)
with an empty result and no retry; the filtered-search branch does NOT
catch it — the failure escapes and aborts the interaction. -/
theorem error_boundary_amended (lines : List String) (b : Bool)
    (cas_number compound_name_cn category has_aroma compound_name_en
      e : String) :
    (runInteraction (some lines) b cas_number compound_name_cn category
        has_aroma compound_name_en (.error e)
      = if parseCasList lines = []
        then .page [.warning "文件为空"] []
        else .page [.error ("批量查询失败: " ++ e)] [])
    ∧ runInteraction none true cas_number compound_name_cn category
        has_aroma compound_name_en (.error e) = .crashed e := by
  refine ⟨?_, rfl⟩
  by_cases h : parseCasList lines = [] <;>
    simp [runInteraction, uploadedFileBranch, h]

/-- C7: the image lookup resolves exactly `img/<identifier>.png`; a
missing file yields the informational "not found" note, an unreadable file
yields the recoverable error note, and a readable file is shown — every
case returns an outcome, none raises. -/
theorem display_image_outcomes (cas : String) (fs : String → FileStatus) :
    imgPath cas = "img/" ++ cas ++ ".png"
    ∧ (fs (imgPath cas) = .absent →
        display_image cas fs = .infoNote ("图片不存在: " ++ cas ++ ".png"))
    ∧ (∀ e, fs (imgPath cas) = .corrupt e →
        display_image cas fs = .errorNote ("图片加载失败: " ++ e))
    ∧ (fs (imgPath cas) = .readable →
        display_image cas fs = .shown ("结构图: " ++ cas ++ ".png")) := by
  refine ⟨rfl, ?_, ?_, ?_⟩
  · intro h; simp [display_image, h]
  · intro e h; simp [display_image, h]
  · intro h; simp [display_image, h]

/-- C7 witness: an identifier with no image file on an empty image
directory yields the informational note. -/
theorem display_image_outcomes_witness :
    display_image "64-17-5" (fun _ => FileStatus.absent)
      = ImageOutcome.infoNote ("图片不存在: " ++ "64-17-5" ++ ".png") :=
  (display_image_outcomes "64-17-5" (fun _ => FileStatus.absent)).2.1 rfl

/-- C10: both renderings of the aroma flag print "是" exactly when the
stored value is the number 1 (integer or real), and "否" for every other
value — 0, NULL, and non-numeric text included; the table column and the
detail view use the same mapping. -/
theorem aroma_display_iff_one (v : Value) :
    (has_aroma_display v = "是" ↔ (v = .intV 1 ∨ v = .realV 1))
    ∧ (has_aroma_display v = "否" ↔ (v ≠ .intV 1 ∧ v ≠ .realV 1))
    ∧ detailAromaText v = has_aroma_display v := by
  have h1 : pyEqOne v = true ↔ (v = .intV 1 ∨ v = .realV 1) := by
    cases v <;> simp [pyEqOne]
  by_cases hp : pyEqOne v = true
  · refine ⟨?_, ?_, rfl⟩
    · rw [has_aroma_display, if_pos hp]
      exact iff_of_true rfl (h1.mp hp)
    · rw [has_aroma_display, if_pos hp]
      refine iff_of_false (by decide) ?_
      rcases h1.mp hp with h | h <;> simp [h]
  · refine ⟨?_, ?_, rfl⟩
    · rw [has_aroma_display, if_neg hp]
      exact iff_of_false (by decide) (fun hor => hp (h1.mpr hor))
    · rw [has_aroma_display, if_neg hp]
      exact iff_of_true rfl
        ⟨fun h => hp (h1.mpr (Or.inl h)), fun h => hp (h1.mpr (Or.inr h))⟩

end CompoundDB
